import Mathlib

/-!
Verification of the ManagerMarcela product-catalog service.

The development shallowly embeds the Express route handlers of
`src/routes/product.routes.ts` (the variant with image-lifecycle handling)
together with the Cloudinary identifier derivation helper, and proves the
behavioural properties stated in the specification.  JavaScript strings are
modelled as lists of characters; the asynchronous handlers are modelled as
pure functions from the database state and the request to an outcome record
that carries the HTTP response, the resulting database state, and the traces
of media-store and persistence calls the handler issued.
-/

namespace ManagerMarcela

/-- Characters of a JavaScript string. -/
abbrev Str := List Char

/-- JavaScript `s.split(sep)` for a one-character separator: splits at every
occurrence of the separator, keeping empty segments, and always returns a
non-empty list of segments. -/
def splitOnChar (sep : Char) : Str → List Str
  | [] => [[]]
  | c :: cs =>
    match splitOnChar sep cs with
    | [] => [[]]
    | r :: rs => if c = sep then [] :: r :: rs else (c :: r) :: rs

/-- JavaScript `arr[arr.length - 1]` on a list of segments (the segment list
produced by `splitOnChar` is never empty, so the default is never used). -/
def lastSeg : List Str → Str
  | [] => []
  | [a] => a
  | _ :: b :: bs => lastSeg (b :: bs)

/-- Embeds `getPublicIdFromUrl` (src/unnamed/part_000, lines 34-39): split the
URL on the slash character, take the last segment, split that on the dot and
take the first piece, and prefix the fixed folder namespace. -/
def getPublicIdFromUrl (url : Str) : Str :=
  let splitUrl := splitOnChar '/' url
  let filename := lastSeg splitUrl
  let publicId := "store-products/".toList ++ (splitOnChar '.' filename).headD []
  publicId

/-- A remote asset held by the media store: its public URL and the internal
identifier used for deletion. -/
structure RemoteAsset where
  url : Str
  identifier : Str

/-- Modelled from the spec: the Media Store Adapter upload stores the binary
under the fixed folder namespace `store-products` and returns a publicly
fetchable URL together with the internal identifier (spec 4.1).  The URL names
the asset as `<base>/store-products/<name>.<ext>` and the internal identifier
is the folder-qualified asset name, following the naming scheme of the hosted
media store configured in src/unnamed/part_000, lines 16-28. -/
def upload (base name ext : Str) : RemoteAsset :=
  { url := base ++ ('/' :: "store-products/".toList) ++ name ++ ('.' :: ext)
    identifier := "store-products/".toList ++ name }

theorem splitOnChar_ne_nil (sep : Char) (s : Str) : splitOnChar sep s ≠ [] := by
  induction s with
  | nil => simp [splitOnChar]
  | cons c cs ih =>
    cases h : splitOnChar sep cs with
    | nil => exact absurd h ih
    | cons r rs =>
      simp only [splitOnChar, h]
      split <;> simp

theorem splitOnChar_of_not_mem (sep : Char) (ys : Str) (h : sep ∉ ys) :
    splitOnChar sep ys = [ys] := by
  induction ys with
  | nil => rfl
  | cons c cs ih =>
    rw [List.mem_cons, not_or] at h
    simp only [splitOnChar, ih h.2]
    rw [if_neg (fun hc => h.1 hc.symm)]

theorem two_le_length_splitOnChar (sep : Char) (s : Str) (h : sep ∈ s) :
    2 ≤ (splitOnChar sep s).length := by
  induction s with
  | nil => simp at h
  | cons c cs ih =>
    cases hsp : splitOnChar sep cs with
    | nil => exact absurd hsp (splitOnChar_ne_nil sep cs)
    | cons r rs =>
      simp only [splitOnChar, hsp]
      by_cases hc : c = sep
      · rw [if_pos hc]
        simp
      · rw [if_neg hc]
        have hm : sep ∈ cs := by
          rcases List.mem_cons.mp h with h1 | h1
          · exact absurd h1.symm hc
          · exact h1
        have h2 := ih hm
        rw [hsp] at h2
        simpa using h2

theorem lastSeg_cons_cons (a b : Str) (bs : List Str) :
    lastSeg (a :: b :: bs) = lastSeg (b :: bs) := rfl

theorem lastSeg_splitOnChar_append (sep : Char) (xs ys : Str) (h : sep ∉ ys) :
    lastSeg (splitOnChar sep (xs ++ sep :: ys)) = ys := by
  induction xs with
  | nil =>
    rw [List.nil_append]
    simp only [splitOnChar, splitOnChar_of_not_mem sep ys h]
    simp [lastSeg]
  | cons x xs ih =>
    have hmem : sep ∈ xs ++ sep :: ys := by simp
    cases hsp : splitOnChar sep (xs ++ sep :: ys) with
    | nil => exact absurd hsp (splitOnChar_ne_nil _ _)
    | cons r rs =>
      have hlen : 2 ≤ (r :: rs).length := by
        rw [← hsp]
        exact two_le_length_splitOnChar sep _ hmem
      cases rs with
      | nil => simp at hlen
      | cons r2 rs2 =>
        simp only [List.cons_append, splitOnChar, List.append_eq, hsp]
        by_cases hc : x = sep
        · rw [if_pos hc, lastSeg_cons_cons, ← hsp]
          exact ih
        · rw [if_neg hc, lastSeg_cons_cons, ← lastSeg_cons_cons r, ← hsp]
          exact ih

theorem headD_splitOnChar_append (sep : Char) (a b : Str) (h : sep ∉ a) :
    (splitOnChar sep (a ++ sep :: b)).headD [] = a := by
  induction a with
  | nil =>
    cases hsp : splitOnChar sep b with
    | nil => exact absurd hsp (splitOnChar_ne_nil _ _)
    | cons r rs => simp [splitOnChar, hsp]
  | cons c cs ih =>
    rw [List.mem_cons, not_or] at h
    cases hsp : splitOnChar sep (cs ++ sep :: b) with
    | nil => exact absurd hsp (splitOnChar_ne_nil _ _)
    | cons r rs =>
      have ih2 := ih h.2
      rw [hsp] at ih2
      simp only [List.cons_append, splitOnChar, List.append_eq, hsp]
      rw [if_neg (fun hc => h.1 hc.symm)]
      simp only [List.headD_cons] at ih2 ⊢
      rw [ih2]

/-- C1: applying the identifier derivation to the URL of an uploaded asset
recovers exactly the internal identifier of that asset, whenever the asset
name is slash-free and dot-free and the extension is slash-free (the naming
scheme of the media store). -/
theorem upload_getPublicIdFromUrl_roundtrip (base name ext : Str)
    (hns : '/' ∉ name) (hnd : '.' ∉ name) (hes : '/' ∉ ext) :
    getPublicIdFromUrl (upload base name ext).url = (upload base name ext).identifier := by
  have hys : ('/' : Char) ∉ name ++ ('.' :: ext) := by
    simp only [List.mem_append, List.mem_cons, not_or]
    exact ⟨hns, by decide, hes⟩
  have hurl : (upload base name ext).url
      = (base ++ ('/' :: "store-products".toList)) ++ ('/' :: (name ++ ('.' :: ext))) := by
    show base ++ ('/' :: "store-products/".toList) ++ name ++ ('.' :: ext) = _
    have hfold : ('/' :: "store-products/".toList : Str)
        = ('/' :: "store-products".toList) ++ ['/'] := by decide
    rw [hfold]
    simp [List.append_assoc]
  simp only [getPublicIdFromUrl]
  rw [hurl, lastSeg_splitOnChar_append '/' _ _ hys, headD_splitOnChar_append '.' _ _ hnd]
  rfl

/-- Witness for C1 at a concrete Cloudinary-shaped URL. -/
theorem upload_getPublicIdFromUrl_roundtrip_witness :
    ('/' : Char) ∉ "abc123".toList ∧ ('.' : Char) ∉ "abc123".toList
      ∧ ('/' : Char) ∉ "jpg".toList
      ∧ getPublicIdFromUrl
          (upload "https://res.cloudinary.com/demo/image/upload/v1".toList
            "abc123".toList "jpg".toList).url
        = (upload "https://res.cloudinary.com/demo/image/upload/v1".toList
            "abc123".toList "jpg".toList).identifier :=
  ⟨by decide, by decide, by decide,
    upload_getPublicIdFromUrl_roundtrip _ _ _ (by decide) (by decide) (by decide)⟩

/-- The product entity (src/types/product.type, as used by the routes). -/
structure Product where
  _id : Str
  name : Str
  description : Str
  price : Rat
  imageUrl : Str
deriving DecidableEq

/-- The `Partial Product` update payload built by the put handler: the three
scalar fields are always present, `imageUrl` only when a new file was
uploaded. -/
structure UpdateData where
  name : Str
  description : Str
  price : Rat
  imageUrl : Option Str
deriving DecidableEq

/-- Modelled from the spec: the Persistence Collaborator is an opaque document
collection supporting list-all; `getProducts` returns the whole collection in
store order (spec 4.2 List). -/
def getProducts (db : List Product) : List Product := db

/-- Modelled from the spec: the Persistence Collaborator insert stores the
record under a store-generated identifier (spec 3, `id`). -/
def insertProduct (db : List Product) (newId : Str) (p : Product) : List Product :=
  db ++ [{ p with _id := newId }]

/-- How an update payload is applied to a stored record: present fields are
replaced, an absent `imageUrl` leaves the stored one untouched. -/
def applyUpdate (p : Product) (d : UpdateData) : Product :=
  { p with
    name := d.name
    description := d.description
    price := d.price
    imageUrl := d.imageUrl.getD p.imageUrl }

/-- Modelled from the spec: the Persistence Collaborator update-by-id replaces
the fields of the record whose identifier matches (spec 4.2 Update). -/
def updateProduct (db : List Product) (i : Str) (d : UpdateData) : List Product :=
  db.map (fun p => if p._id = i then applyUpdate p d else p)

/-- Modelled from the spec: the Persistence Collaborator delete-by-id removes
the record whose identifier matches (spec 4.2 Delete). -/
def deleteProduct (db : List Product) (i : Str) : List Product :=
  db.filter (fun p => !(p._id == i))

/-- An HTTP response as produced by the handlers: status code and the
`message` field of the JSON body. -/
structure HttpResponse where
  status : Nat
  message : Str
deriving DecidableEq

/-- A multipart POST request: body fields plus the optional uploaded file,
represented by the Cloudinary path (URL) the multer middleware stored for it. -/
structure PostRequest where
  name : Str
  description : Str
  price : Rat
  file : Option Str
deriving DecidableEq

/-- Outcome of the create route: response, resulting database, and the traces
of media-store uploads (performed by the multer middleware) and persistence
inserts the request caused. -/
structure PostOutcome where
  response : HttpResponse
  db : List Product
  uploadCalls : List Str
  insertCalls : List Product
deriving DecidableEq

/-- Embeds `productRouter.post` (src/unnamed/part_000, lines 52-73) together
with its `upload.single` middleware: when a file is attached the middleware
has already uploaded it and set `req.file.path`; the handler rejects requests
without a file and otherwise inserts the new product with `imageUrl` taken
from the uploaded file path.  `newId` is the identifier the store generates
for the insert. -/
def postHandler (db : List Product) (req : PostRequest) (newId : Str) : PostOutcome :=
  match req.file with
  | none =>
    { response := { status := 400, message := "Image is required".toList }
      db := db
      uploadCalls := []
      insertCalls := [] }
  | some path =>
    let newProduct : Product :=
      { _id := []
        name := req.name
        description := req.description
        price := req.price
        imageUrl := path }
    { response := { status := 201, message := "Product created".toList }
      db := insertProduct db newId newProduct
      uploadCalls := [path]
      insertCalls := [newProduct] }

/-- A multipart PUT request: the `:id` route parameter, body fields, and the
optional uploaded file path. -/
structure PutRequest where
  id : Str
  name : Str
  description : Str
  price : Rat
  file : Option Str
deriving DecidableEq

/-- Outcome of the update route: response, resulting database, and the traces
of media-store uploads, media-store destroy calls (by public identifier), and
`updateProduct` persistence calls the request caused. -/
structure PutOutcome where
  response : HttpResponse
  db : List Product
  uploadCalls : List Str
  destroyCalls : List Str
  updateCalls : List (Str × UpdateData)
deriving DecidableEq

/-- Embeds `productRouter.put` (src/unnamed/part_000, lines 76-106) together
with its `upload.single` middleware.  The handler scans the product list for
the id, always builds the scalar update payload, and, when a file was
uploaded, destroys the old image first (only if the existing product has a
truthy `imageUrl`) and adds the new path to the payload.  `destroyOk` says
whether the media-store destroy call succeeds; a rejected destroy throws into
the catch block, which answers 500 before the persistence update happens. -/
def putHandler (db : List Product) (req : PutRequest) (destroyOk : Bool) : PutOutcome :=
  let existingProduct := (getProducts db).find? (fun p => p._id == req.id)
  let updateData0 : UpdateData :=
    { name := req.name, description := req.description, price := req.price, imageUrl := none }
  match req.file with
  | none =>
    { response := { status := 200, message := "Product updated".toList }
      db := updateProduct db req.id updateData0
      uploadCalls := []
      destroyCalls := []
      updateCalls := [(req.id, updateData0)] }
  | some path =>
    let updateData : UpdateData := { updateData0 with imageUrl := some path }
    match existingProduct with
    | none =>
      { response := { status := 200, message := "Product updated".toList }
        db := updateProduct db req.id updateData
        uploadCalls := [path]
        destroyCalls := []
        updateCalls := [(req.id, updateData)] }
    | some p =>
      if p.imageUrl = [] then
        { response := { status := 200, message := "Product updated".toList }
          db := updateProduct db req.id updateData
          uploadCalls := [path]
          destroyCalls := []
          updateCalls := [(req.id, updateData)] }
      else if destroyOk then
        { response := { status := 200, message := "Product updated".toList }
          db := updateProduct db req.id updateData
          uploadCalls := [path]
          destroyCalls := [getPublicIdFromUrl p.imageUrl]
          updateCalls := [(req.id, updateData)] }
      else
        { response := { status := 500, message := "Error updating product".toList }
          db := db
          uploadCalls := [path]
          destroyCalls := [getPublicIdFromUrl p.imageUrl]
          updateCalls := [] }

/-- Outcome of the delete route: response, resulting database, and the traces
of media-store destroy calls and `deleteProduct` persistence calls. -/
structure DeleteOutcome where
  response : HttpResponse
  db : List Product
  destroyCalls : List Str
  deleteCalls : List Str
deriving DecidableEq

/-- Embeds `productRouter.delete` (src/unnamed/part_000, lines 109-135).  The
handler scans the product list for the id, answers 404 when it is absent,
destroys the image only when the stored `imageUrl` is truthy, then deletes
the record.  `destroyOk` says whether the media-store destroy call succeeds;
a rejected destroy throws into the catch block, which answers 500 before the
record deletion happens. -/
def deleteHandler (db : List Product) (i : Str) (destroyOk : Bool) : DeleteOutcome :=
  let product := (getProducts db).find? (fun p => p._id == i)
  match product with
  | none =>
    { response := { status := 404, message := "Product not found".toList }
      db := db
      destroyCalls := []
      deleteCalls := [] }
  | some p =>
    if p.imageUrl = [] then
      { response := { status := 200, message := "Product and associated image deleted".toList }
        db := deleteProduct db i
        destroyCalls := []
        deleteCalls := [i] }
    else if destroyOk then
      { response := { status := 200, message := "Product and associated image deleted".toList }
        db := deleteProduct db i
        destroyCalls := [getPublicIdFromUrl p.imageUrl]
        deleteCalls := [i] }
    else
      { response := { status := 500, message := "Error deleting product".toList }
        db := db
        destroyCalls := [getPublicIdFromUrl p.imageUrl]
        deleteCalls := [] }

theorem imageUrl_applyUpdate_none (p : Product) (d : UpdateData) (hd : d.imageUrl = none) :
    (applyUpdate p d).imageUrl = p.imageUrl := by
  simp [applyUpdate, hd]

theorem map_imageUrl_updateProduct (db : List Product) (i : Str) (d : UpdateData)
    (hd : d.imageUrl = none) :
    (updateProduct db i d).map (fun q => q.imageUrl) = db.map (fun q => q.imageUrl) := by
  unfold updateProduct
  rw [List.map_map]
  apply List.map_congr_left
  intro a _
  by_cases h : a._id = i
  · simp [h, Function.comp, imageUrl_applyUpdate_none a d hd]
  · simp [h, Function.comp]

theorem imageUrl_of_mem_updateProduct (db : List Product) (i : Str) (d : UpdateData) (u : Str)
    (hd : d.imageUrl = some u) :
    ∀ q ∈ updateProduct db i d, q._id = i → q.imageUrl = u := by
  intro q hq hqi
  simp only [updateProduct, List.mem_map] at hq
  obtain ⟨r, hr, hrq⟩ := hq
  by_cases hri : r._id = i
  · rw [if_pos hri] at hrq
    rw [← hrq]
    simp [applyUpdate, hd]
  · rw [if_neg hri] at hrq
    rw [← hrq] at hqi
    exact absurd hqi hri

theorem ne_of_mem_deleteProduct (db : List Product) (i : Str) :
    ∀ q ∈ deleteProduct db i, q._id ≠ i := by
  intro q hq
  have h := (List.mem_filter.mp hq).2
  simpa using h

/-- Sample product on which a failing media-store destroy is observed. -/
def destroyFailProduct : Product :=
  { _id := ['1'], name := ['m'], description := ['d'], price := 9, imageUrl := ['u'] }

/-- Update request carrying a new image for `destroyFailProduct`. -/
def destroyFailPutReq : PutRequest :=
  { id := ['1'], name := ['m'], description := ['d'], price := 8, file := some ['v'] }

/-- Counterexample to C2: when the media-store destroy of the old image fails
during an update of an existing product, the handler does not swallow the
failure — it answers 500, issues no persistence update call, and leaves the
record unchanged, so the product-record operation neither completes nor
reports success. -/
theorem put_destroy_failure_not_swallowed_cex :
    (putHandler [destroyFailProduct] destroyFailPutReq false).response.status = 500
    ∧ (putHandler [destroyFailProduct] destroyFailPutReq false).updateCalls = []
    ∧ (putHandler [destroyFailProduct] destroyFailPutReq false).db = [destroyFailProduct] := by
  decide

/-- C2 (amended): a failure of the media-store deletion of the old image asset
is fatal to the operation: both the update and the delete handler catch it in
their generic error handler, answer 500, and skip the persistence call, so
the product record is left unchanged. -/
theorem destroy_failure_aborts_operation (db : List Product) (req : PutRequest) (i : Str)
    (p q : Product) (path : Str)
    (hp : (getProducts db).find? (fun r => r._id == req.id) = some p)
    (hpi : p.imageUrl ≠ []) (hf : req.file = some path)
    (hq : (getProducts db).find? (fun r => r._id == i) = some q)
    (hqi : q.imageUrl ≠ []) :
    ((putHandler db req false).response.status = 500
      ∧ (putHandler db req false).updateCalls = []
      ∧ (putHandler db req false).db = db)
    ∧ ((deleteHandler db i false).response.status = 500
      ∧ (deleteHandler db i false).deleteCalls = []
      ∧ (deleteHandler db i false).db = db) := by
  constructor
  · simp only [putHandler, hf, hp]
    rw [if_neg hpi, if_neg Bool.false_ne_true]
    exact ⟨rfl, rfl, rfl⟩
  · simp only [deleteHandler, hq]
    rw [if_neg hqi, if_neg Bool.false_ne_true]
    exact ⟨rfl, rfl, rfl⟩

/-- Witness for C2 (amended) at a concrete one-product catalog. -/
theorem destroy_failure_aborts_operation_witness :
    ((getProducts [destroyFailProduct]).find? (fun r => r._id == destroyFailPutReq.id)
        = some destroyFailProduct
      ∧ destroyFailProduct.imageUrl ≠ []
      ∧ destroyFailPutReq.file = some ['v'])
    ∧ (((putHandler [destroyFailProduct] destroyFailPutReq false).response.status = 500
        ∧ (putHandler [destroyFailProduct] destroyFailPutReq false).updateCalls = []
        ∧ (putHandler [destroyFailProduct] destroyFailPutReq false).db = [destroyFailProduct])
      ∧ ((deleteHandler [destroyFailProduct] ['1'] false).response.status = 500
        ∧ (deleteHandler [destroyFailProduct] ['1'] false).deleteCalls = []
        ∧ (deleteHandler [destroyFailProduct] ['1'] false).db = [destroyFailProduct])) :=
  ⟨⟨by decide, by decide, by decide⟩,
    destroy_failure_aborts_operation [destroyFailProduct] destroyFailPutReq ['1']
      destroyFailProduct destroyFailProduct ['v']
      (by decide) (by decide) (by decide) (by decide) (by decide)⟩

/-- Update request whose id matches nothing in the catalog. -/
def missingIdPutReq : PutRequest :=
  { id := ['x'], name := ['n'], description := ['d'], price := 1, file := none }

/-- C3: the update handler performs no existence check — on an id that
resolves to no product it still answers 200 and still issues the persistence
update call, instead of failing with 404 and performing no write. -/
theorem put_missing_id_no_notFound :
    (putHandler [] missingIdPutReq true).response.status = 200
    ∧ (putHandler [] missingIdPutReq true).updateCalls ≠ [] := by
  decide

/-- Create request with empty name and description and price 0, carrying an
image file. -/
def invalidCreateReq : PostRequest :=
  { name := [], description := [], price := 0, file := some ['u'] }

/-- Counterexample to C4: the create handler accepts a request whose name and
description are empty and whose price is 0, answering 201 and persisting a
record that violates the stated data-model invariant. -/
theorem post_accepts_invalid_fields_cex :
    (postHandler [] invalidCreateReq ['1']).response.status = 201
    ∧ (postHandler [] invalidCreateReq ['1']).db
        = [{ _id := ['1'], name := [], description := [], price := 0, imageUrl := ['u'] }] := by
  decide

/-- C4 (amended): creation validates only the presence of the image — without
a file it answers 400 and inserts nothing; with a file it answers 201 and
persists the supplied name, description and price unvalidated, with
`imageUrl` set to the uploaded file path. -/
theorem post_validates_only_image (db : List Product) (n d : Str) (pr : Rat) (newId : Str) :
    ((postHandler db { name := n, description := d, price := pr, file := none } newId).response.status
        = 400
      ∧ (postHandler db { name := n, description := d, price := pr, file := none } newId).db = db
      ∧ (postHandler db { name := n, description := d, price := pr, file := none } newId).insertCalls
        = [])
    ∧ ∀ path : Str,
        (postHandler db { name := n, description := d, price := pr, file := some path }
            newId).response.status = 201
        ∧ (postHandler db { name := n, description := d, price := pr, file := some path } newId).db
            = db ++ [{ _id := newId, name := n, description := d, price := pr, imageUrl := path }] :=
  ⟨⟨rfl, rfl, rfl⟩, fun _ => ⟨rfl, rfl⟩⟩

/-- C5: an update of an existing product that carries a new image answers 200,
issues exactly one media-store destroy call whose argument is the identifier
derived from the previous `imageUrl`, and sets the `imageUrl` of the matching
record to the newly uploaded file path. -/
theorem put_with_new_image (db : List Product) (req : PutRequest) (p : Product) (path : Str)
    (hp : (getProducts db).find? (fun r => r._id == req.id) = some p)
    (himg : p.imageUrl ≠ []) (hf : req.file = some path) :
    (putHandler db req true).response.status = 200
    ∧ (putHandler db req true).destroyCalls = [getPublicIdFromUrl p.imageUrl]
    ∧ (∀ q ∈ (putHandler db req true).db, q._id = req.id → q.imageUrl = path)
    ∧ ∃ q ∈ (putHandler db req true).db, q._id = req.id := by
  have hpm : p ∈ db := List.mem_of_find?_eq_some hp
  have hpeq : p._id = req.id := by
    have h := List.find?_some hp
    simpa using h
  simp only [putHandler, hf, hp]
  rw [if_neg himg, if_pos trivial]
  refine ⟨rfl, rfl, ?_, ?_⟩
  · intro q hq hqid
    exact imageUrl_of_mem_updateProduct db req.id _ path rfl q hq hqid
  · refine ⟨applyUpdate p { name := req.name, description := req.description, price := req.price, imageUrl := some path }, ?_, hpeq⟩
    exact List.mem_map.mpr ⟨p, hpm, by rw [if_pos hpeq]⟩

/-- Witness for C5 at a concrete one-product catalog. -/
theorem put_with_new_image_witness :
    ((getProducts [destroyFailProduct]).find? (fun r => r._id == destroyFailPutReq.id)
        = some destroyFailProduct
      ∧ destroyFailProduct.imageUrl ≠ []
      ∧ destroyFailPutReq.file = some ['v'])
    ∧ ((putHandler [destroyFailProduct] destroyFailPutReq true).response.status = 200
      ∧ (putHandler [destroyFailProduct] destroyFailPutReq true).destroyCalls
          = [getPublicIdFromUrl destroyFailProduct.imageUrl]
      ∧ (∀ q ∈ (putHandler [destroyFailProduct] destroyFailPutReq true).db,
          q._id = destroyFailPutReq.id → q.imageUrl = ['v'])
      ∧ ∃ q ∈ (putHandler [destroyFailProduct] destroyFailPutReq true).db,
          q._id = destroyFailPutReq.id) :=
  ⟨⟨by decide, by decide, by decide⟩,
    put_with_new_image [destroyFailProduct] destroyFailPutReq destroyFailProduct ['v']
      (by decide) (by decide) (by decide)⟩

/-- C6: an update of an existing product without a new image issues no
media-store upload and no destroy call, answers 200, and leaves the
`imageUrl` of every stored record (in particular the updated one) exactly as
it was. -/
theorem put_without_image (db : List Product) (req : PutRequest) (p : Product) (destroyOk : Bool)
    (hp : (getProducts db).find? (fun r => r._id == req.id) = some p)
    (hf : req.file = none) :
    (putHandler db req destroyOk).response.status = 200
    ∧ (putHandler db req destroyOk).uploadCalls = []
    ∧ (putHandler db req destroyOk).destroyCalls = []
    ∧ (putHandler db req destroyOk).db.map (fun q => q.imageUrl)
        = db.map (fun q => q.imageUrl) := by
  simp only [putHandler, hf]
  refine ⟨trivial, trivial, trivial, ?_⟩
  exact map_imageUrl_updateProduct db req.id _ rfl

/-- Update request for product 1 carrying no new image. -/
def noImagePutReq : PutRequest :=
  { id := ['1'], name := ['n'], description := ['d'], price := 2, file := none }

/-- Witness for C6 at a concrete one-product catalog. -/
theorem put_without_image_witness :
    ((getProducts [destroyFailProduct]).find? (fun r => r._id == noImagePutReq.id)
        = some destroyFailProduct
      ∧ noImagePutReq.file = none)
    ∧ ((putHandler [destroyFailProduct] noImagePutReq true).response.status = 200
      ∧ (putHandler [destroyFailProduct] noImagePutReq true).uploadCalls = []
      ∧ (putHandler [destroyFailProduct] noImagePutReq true).destroyCalls = []
      ∧ (putHandler [destroyFailProduct] noImagePutReq true).db.map (fun q => q.imageUrl)
          = [destroyFailProduct].map (fun q => q.imageUrl)) :=
  ⟨⟨by decide, by decide⟩,
    put_without_image [destroyFailProduct] noImagePutReq destroyFailProduct true
      (by decide) (by decide)⟩

/-- C7: deleting an existing product answers 200, issues exactly one
media-store destroy call whose argument is the identifier derived from the
stored `imageUrl`, issues the record deletion, and removes every record with
that id from the list returned by subsequent List calls. -/
theorem delete_existing_removes_and_destroys (db : List Product) (i : Str) (p : Product)
    (hp : (getProducts db).find? (fun r => r._id == i) = some p)
    (himg : p.imageUrl ≠ []) :
    (deleteHandler db i true).response.status = 200
    ∧ (deleteHandler db i true).destroyCalls = [getPublicIdFromUrl p.imageUrl]
    ∧ (deleteHandler db i true).deleteCalls = [i]
    ∧ ∀ q ∈ getProducts (deleteHandler db i true).db, q._id ≠ i := by
  simp only [deleteHandler, hp]
  rw [if_neg himg, if_pos trivial]
  refine ⟨rfl, rfl, rfl, ?_⟩
  intro q hq
  exact ne_of_mem_deleteProduct db i q hq

/-- Witness for C7 at a concrete one-product catalog. -/
theorem delete_existing_removes_and_destroys_witness :
    ((getProducts [destroyFailProduct]).find? (fun r => r._id == ['1']) = some destroyFailProduct
      ∧ destroyFailProduct.imageUrl ≠ [])
    ∧ ((deleteHandler [destroyFailProduct] ['1'] true).response.status = 200
      ∧ (deleteHandler [destroyFailProduct] ['1'] true).destroyCalls
          = [getPublicIdFromUrl destroyFailProduct.imageUrl]
      ∧ (deleteHandler [destroyFailProduct] ['1'] true).deleteCalls = [['1']]
      ∧ ∀ q ∈ getProducts (deleteHandler [destroyFailProduct] ['1'] true).db, q._id ≠ ['1']) :=
  ⟨⟨by decide, by decide⟩,
    delete_existing_removes_and_destroys [destroyFailProduct] ['1'] destroyFailProduct
      (by decide) (by decide)⟩

/-- C8: deleting an id that resolves to no product answers 404 with the
not-found message, issues no media-store call, issues no record deletion, and
leaves the catalog unchanged. -/
theorem delete_missing_id_notFound (db : List Product) (i : Str) (destroyOk : Bool)
    (h : (getProducts db).find? (fun r => r._id == i) = none) :
    (deleteHandler db i destroyOk).response.status = 404
    ∧ (deleteHandler db i destroyOk).response.message = "Product not found".toList
    ∧ (deleteHandler db i destroyOk).destroyCalls = []
    ∧ (deleteHandler db i destroyOk).deleteCalls = []
    ∧ (deleteHandler db i destroyOk).db = db := by
  simp [deleteHandler, h]

/-- Witness for C8 on the empty catalog. -/
theorem delete_missing_id_notFound_witness :
    (getProducts []).find? (fun r => r._id == (['z'] : Str)) = none
    ∧ ((deleteHandler [] ['z'] true).response.status = 404
      ∧ (deleteHandler [] ['z'] true).response.message = "Product not found".toList
      ∧ (deleteHandler [] ['z'] true).destroyCalls = []
      ∧ (deleteHandler [] ['z'] true).deleteCalls = []
      ∧ (deleteHandler [] ['z'] true).db = []) :=
  ⟨by decide, delete_missing_id_notFound [] ['z'] true (by decide)⟩

/-- Stored product whose `imageUrl` is the empty string. -/
def noImageProduct : Product :=
  { _id := ['2'], name := ['m'], description := ['d'], price := 3, imageUrl := [] }

/-- C10: deleting an existing product whose stored `imageUrl` is empty issues
no media-store destroy call, still issues the record deletion, answers 200,
and removes every record with that id from subsequent List results. -/
theorem delete_empty_imageUrl_skips_destroy (db : List Product) (i : Str) (p : Product)
    (destroyOk : Bool)
    (hp : (getProducts db).find? (fun r => r._id == i) = some p)
    (himg : p.imageUrl = []) :
    (deleteHandler db i destroyOk).response.status = 200
    ∧ (deleteHandler db i destroyOk).destroyCalls = []
    ∧ (deleteHandler db i destroyOk).deleteCalls = [i]
    ∧ ∀ q ∈ getProducts (deleteHandler db i destroyOk).db, q._id ≠ i := by
  simp only [deleteHandler, hp]
  rw [if_pos himg]
  refine ⟨rfl, rfl, rfl, ?_⟩
  intro q hq
  exact ne_of_mem_deleteProduct db i q hq

/-- Witness for C10 at a concrete catalog holding a product without an
image URL. -/
theorem delete_empty_imageUrl_skips_destroy_witness :
    ((getProducts [noImageProduct]).find? (fun r => r._id == ['2']) = some noImageProduct
      ∧ noImageProduct.imageUrl = [])
    ∧ ((deleteHandler [noImageProduct] ['2'] true).response.status = 200
      ∧ (deleteHandler [noImageProduct] ['2'] true).destroyCalls = []
      ∧ (deleteHandler [noImageProduct] ['2'] true).deleteCalls = [['2']]
      ∧ ∀ q ∈ getProducts (deleteHandler [noImageProduct] ['2'] true).db, q._id ≠ ['2']) :=
  ⟨⟨by decide, by decide⟩,
    delete_empty_imageUrl_skips_destroy [noImageProduct] ['2'] noImageProduct true
      (by decide) (by decide)⟩

/-- C9: a create request without an image file answers 400 with the
image-required message, inserts nothing, leaves the catalog unchanged, and
causes no media-store upload. -/
theorem post_without_image_rejected (db : List Product) (n d : Str) (pr : Rat) (newId : Str) :
    (postHandler db { name := n, description := d, price := pr, file := none }
        newId).response.status = 400
    ∧ (postHandler db { name := n, description := d, price := pr, file := none }
        newId).response.message = "Image is required".toList
    ∧ (postHandler db { name := n, description := d, price := pr, file := none } newId).db = db
    ∧ (postHandler db { name := n, description := d, price := pr, file := none }
        newId).uploadCalls = []
    ∧ (postHandler db { name := n, description := d, price := pr, file := none }
        newId).insertCalls = [] :=
  ⟨rfl, rfl, rfl, rfl, rfl⟩

end ManagerMarcela
